import Mathlib

/-!
Verification of the xbox_control event pipeline against its specification.

The definitions below are a shallow embedding of the C++ sources:

* `src/include/xbox_udp_protocol.hpp` — packed wire layouts and magics;
* `src/src/controller_config.cpp`    — axis normalization and config matching;
* `src/src/controller_base.cpp`      — `XboxController::processEvent`,
  `sendVibration`, `stopVibration` and the `ControllerBase::create` factory;
* `src/src/udp_receiver.cpp`         — `UDPReceiver::poll`;
* `src/src/xbox_udp_publisher.cpp`   — the standalone publisher main loop,
  its `scan_controllers`, `send_vibration` and `stop_vibration`;
* `src/src/joystick.cpp`             — the joystick-manager main loop and its
  `scan_controllers`.

Machine integers are modelled as `Nat`/`Int` (with explicit `% 256` where the
code truncates to `uint8_t`), C++ `double` arithmetic as exact rational
arithmetic over `ℚ`, and the fallible syscall layer (ioctl/write/recv) as
explicit environment flags and datagram byte lists.
-/

namespace XboxControl

/-! ## Wire format constants (xbox_udp_protocol.hpp) -/

/-- `PACKET_MAGIC = 0x31434258` ("XBC1"). -/
def PACKET_MAGIC : Nat := 0x31434258

/-- `VIBRATION_MAGIC = 0x56425258` ("XRBV"). -/
def VIBRATION_MAGIC : Nat := 0x56425258

/-- Linux evdev event-type codes used by the pipeline. -/
def EV_SYN : Nat := 0

def EV_KEY : Nat := 1

def EV_ABS : Nat := 3

def EV_FF : Nat := 21

/-! ## Packed struct layout (`#pragma pack(push, 1)`)

`InputEventPacket` fields: `uint32 magic; uint8 device_id; uint16 type;
uint16 code; int32 value; double normalized; uint32 sec; uint32 usec`.
`VibrationPacket` fields: `uint32 magic; uint8 device_id; uint16 left_motor;
uint16 right_motor; uint32 duration_ms`.  With `pack(1)` there is no padding:
each field occupies exactly its width and `sizeof` is the sum of widths. -/

/-- Byte widths of the `InputEventPacket` fields, in declaration order. -/
def inputEventWidths : List Nat := [4, 1, 2, 2, 4, 8, 4, 4]

/-- Byte widths of the `VibrationPacket` fields, in declaration order. -/
def vibrationWidths : List Nat := [4, 1, 2, 2, 4]

/-- `sizeof(InputEventPacket)` under `#pragma pack(1)`. -/
def inputEventPacketSize : Nat := inputEventWidths.sum

/-- `sizeof(VibrationPacket)` under `#pragma pack(1)`. -/
def vibrationPacketSize : Nat := vibrationWidths.sum

/-- Natural byte offsets of packed fields: each field starts where the
previous one ends. -/
def offsetsOf : List Nat → List Nat
  | [] => []
  | w :: ws => 0 :: (offsetsOf ws).map (· + w)

/-- Little-endian byte serialization of a `w`-byte unsigned field. -/
def leBytes : Nat → Nat → List Nat
  | 0, _ => []
  | w + 1, v => (v % 256) :: leBytes w (v / 256)

theorem leBytes_length (w v : Nat) : (leBytes w v).length = w := by
  induction w generalizing v with
  | zero => rfl
  | succ n ih => simp [leBytes, ih]

/-- An `InputEventPacket` value as written to the wire.  The `double`
field travels as its 8-byte IEEE-754 bit pattern (`normalizedBits`). -/
structure WireInputEvent where
  magic : Nat
  device_id : Nat
  etype : Nat
  code : Nat
  value : Int
  normalizedBits : Nat
  sec : Nat
  usec : Nat

/-- A `VibrationPacket` value as written to the wire. -/
structure WireVibration where
  magic : Nat
  device_id : Nat
  left_motor : Nat
  right_motor : Nat
  duration_ms : Nat

/-- Field-by-field little-endian serialization of `InputEventPacket`
(the packed, padding-free in-memory image that `send` transmits). -/
def packInputEvent (p : WireInputEvent) : List Nat :=
  leBytes 4 p.magic ++ leBytes 1 p.device_id ++ leBytes 2 p.etype ++
    leBytes 2 p.code ++ leBytes 4 (p.value % (2 ^ 32 : Int)).toNat ++
    leBytes 8 p.normalizedBits ++ leBytes 4 p.sec ++ leBytes 4 p.usec

/-- Field-by-field little-endian serialization of `VibrationPacket`. -/
def packVibration (p : WireVibration) : List Nat :=
  leBytes 4 p.magic ++ leBytes 1 p.device_id ++ leBytes 2 p.left_motor ++
    leBytes 2 p.right_motor ++ leBytes 4 p.duration_ms

end XboxControl

namespace XboxControl

/-- Claim C1 (counterexample): the packed input-event datagram is 29 bytes
(4+1+2+2+4+8+4+4), not the 36 bytes stated; the vibration datagram is
13 bytes as stated. -/
theorem C1_counterexample :
    inputEventPacketSize = 29 ∧ ¬ inputEventPacketSize = 36 ∧
      vibrationPacketSize = 13 := by
  decide

/-- Claim C1 (amended): both datagrams are packed with their fields at the
natural byte offsets listed in the spec and no padding —
`InputEventPacket` at offsets 0,4,5,7,9,13,21,25 for a total of 29 bytes
(not 36), and `VibrationPacket` at offsets 0,4,5,7,9 for a total of
13 bytes; the serialized images have exactly those lengths. -/
theorem C1_packed_layout :
    offsetsOf inputEventWidths = [0, 4, 5, 7, 9, 13, 21, 25] ∧
      inputEventPacketSize = 29 ∧
      offsetsOf vibrationWidths = [0, 4, 5, 7, 9] ∧
      vibrationPacketSize = 13 ∧
      (∀ p : WireInputEvent, (packInputEvent p).length = inputEventPacketSize) ∧
      (∀ q : WireVibration, (packVibration q).length = vibrationPacketSize) := by
  refine ⟨by decide, by decide, by decide, by decide, ?_, ?_⟩
  · intro p
    simp [packInputEvent, leBytes_length, inputEventPacketSize, inputEventWidths]
  · intro q
    simp [packVibration, leBytes_length, vibrationPacketSize, vibrationWidths]

end XboxControl

namespace XboxControl

/-! ## Axis normalization (`ControllerConfig::normalizeAxis`,
controller_config.cpp lines 162–221).

`double` arithmetic is modelled exactly over `ℚ`; raw values and the axis
record's `min`/`max`/`deadzone` are `int32_t`, modelled as `Int`. -/

/-- The `AxisMapping` record (controller_config.hpp). -/
structure AxisMapping where
  code : Nat
  min : Int
  max : Int
  deadzone : Int
  normalize : Bool
  output_min : ℚ
  output_max : ℚ

/-- `std::min` on `int32_t`. -/
def imin (a b : Int) : Int := if b < a then b else a

/-- `std::max` on `int32_t`. -/
def imax (a b : Int) : Int := if a < b then b else a

/-- `std::abs` on `int32_t`. -/
def iabs (v : Int) : Int := if v < 0 then -v else v

/-- `std::min` on `double`. -/
def qmin (a b : ℚ) : ℚ := if b < a then b else a

/-- `std::max` on `double`. -/
def qmax (a b : ℚ) : ℚ := if a < b then b else a

theorem imin_eq_min (a b : Int) : imin a b = min a b := by
  unfold imin
  rcases le_or_lt a b with h | h
  · rw [if_neg (not_lt.2 h), min_eq_left h]
  · rw [if_pos h, min_eq_right h.le]

theorem imax_eq_max (a b : Int) : imax a b = max a b := by
  unfold imax
  rcases lt_or_le a b with h | h
  · rw [if_pos h, max_eq_right h.le]
  · rw [if_neg (not_lt.2 h), max_eq_left h]

theorem iabs_eq_abs (v : Int) : iabs v = |v| := by
  unfold iabs
  rcases lt_or_le v 0 with h | h
  · rw [if_pos h, abs_of_neg h]
  · rw [if_neg (not_lt.2 h), abs_of_nonneg h]

theorem qmin_eq_min (a b : ℚ) : qmin a b = min a b := by
  unfold qmin
  rcases le_or_lt a b with h | h
  · rw [if_neg (not_lt.2 h), min_eq_left h]
  · rw [if_pos h, min_eq_right h.le]

theorem qmax_eq_max (a b : ℚ) : qmax a b = max a b := by
  unfold qmax
  rcases lt_or_le a b with h | h
  · rw [if_pos h, max_eq_right h.le]
  · rw [if_neg (not_lt.2 h), max_eq_left h]

/-- `effective_max_pos`: `max - deadzone` when the deadzone is applied,
else `max` (controller_config.cpp lines 190–196). -/
def effMax (adz : Bool) (m : AxisMapping) : Int :=
  if adz = true ∧ 0 < m.deadzone then m.max - m.deadzone else m.max

/-- `effective_min_neg`: `min + deadzone` when the deadzone is applied,
else `min` (controller_config.cpp lines 190–196). -/
def effMin (adz : Bool) (m : AxisMapping) : Int :=
  if adz = true ∧ 0 < m.deadzone then m.min + m.deadzone else m.min

/-- "Scale to remove deadzone" (controller_config.cpp lines 177–183):
shrink the raw value toward zero by `deadzone` when the deadzone applies. -/
def dzShrink (adz : Bool) (m : AxisMapping) (raw : Int) : Int :=
  if adz = true ∧ 0 < m.deadzone then
    (if 0 < raw then raw - m.deadzone else raw + m.deadzone)
  else raw

/-- "Clamp to bounds": `std::max(min, std::min(max, value))` (line 186). -/
def clampRange (m : AxisMapping) (v : Int) : Int := imax m.min (imin m.max v)

/-- Symmetric-case output map (controller_config.cpp lines 201–211):
`out_min + ((clamp(v/maxAbs, -1, 1) + 1) / 2) * (out_max - out_min)`. -/
def symScale (m : AxisMapping) (v2 maxAbs : Int) : ℚ :=
  m.output_min + ((qmax (-1) (qmin 1 ((v2 : ℚ) / (maxAbs : ℚ))) + 1) / 2) *
    (m.output_max - m.output_min)

/-- Asymmetric-case output map (controller_config.cpp lines 212–220):
`out_min + ((v - emin) / erange) * (out_max - out_min)`. -/
def asymScale (m : AxisMapping) (v2 emin : Int) (erange : ℚ) : ℚ :=
  m.output_min + (((v2 - emin : Int) : ℚ) / erange) * (m.output_max - m.output_min)

/-- `ControllerConfig::normalizeAxis` applied to a present mapping
(controller_config.cpp lines 162–221).  `adz` is
`norm_settings_.apply_deadzone` (default `true`). -/
def normAxisMapped (adz : Bool) (m : AxisMapping) (raw : Int) : ℚ :=
  if m.normalize = false then (raw : ℚ)
  else if adz = true ∧ 0 < m.deadzone ∧ iabs raw ≤ m.deadzone then 0
  else if m.output_min < 0 then
    (if imax (iabs (effMax adz m)) (iabs (effMin adz m)) = 0 then 0
     else symScale m (clampRange m (dzShrink adz m raw))
            (imax (iabs (effMax adz m)) (iabs (effMin adz m))))
  else
    (if ((effMax adz m - effMin adz m : Int) : ℚ) = 0 then m.output_min
     else asymScale m (clampRange m (dzShrink adz m raw)) (effMin adz m)
            ((effMax adz m - effMin adz m : Int) : ℚ))

/-- The S1 axis record
`{min=-32768, max=32767, deadzone=8000, normalize=true, output_min=-1.0, output_max=1.0}`. -/
def s1Axis : AxisMapping :=
  { code := 0, min := -32768, max := 32767, deadzone := 8000,
    normalize := true, output_min := -1, output_max := 1 }

theorem effMax_true (m : AxisMapping) :
    effMax true m = if 0 < m.deadzone then m.max - m.deadzone else m.max := by
  simp [effMax]

theorem effMin_true (m : AxisMapping) :
    effMin true m = if 0 < m.deadzone then m.min + m.deadzone else m.min := by
  simp [effMin]

theorem dzShrink_true (m : AxisMapping) (raw : Int) :
    dzShrink true m raw =
      if 0 < m.deadzone then
        (if 0 < raw then raw - m.deadzone else raw + m.deadzone)
      else raw := by
  simp [dzShrink]

theorem iabs_nonneg (v : Int) : 0 ≤ iabs v := by
  unfold iabs
  split_ifs <;> omega

/-- Raw values inside the deadzone return `0.0` before any case split
(controller_config.cpp lines 172–175): this holds for the asymmetric case
as well, where the spec expects `output_min`. -/
theorem normAxis_dz_zero (m : AxisMapping) (raw : Int) (hn : m.normalize = true)
    (hdz : 0 < m.deadzone) (hin : iabs raw ≤ m.deadzone) :
    normAxisMapped true m raw = 0 := by
  unfold normAxisMapped
  rw [if_neg (by simp [hn]), if_pos ⟨rfl, hdz, hin⟩]

theorem normAxis_sym_eq (m : AxisMapping) (raw : Int) (hn : m.normalize = true)
    (hsym : m.output_min < 0)
    (hout : ¬ (0 < m.deadzone ∧ iabs raw ≤ m.deadzone)) :
    normAxisMapped true m raw =
      (if imax (iabs (effMax true m)) (iabs (effMin true m)) = 0 then 0
       else symScale m (clampRange m (dzShrink true m raw))
              (imax (iabs (effMax true m)) (iabs (effMin true m)))) := by
  unfold normAxisMapped
  rw [if_neg (by simp [hn]), if_neg (by simpa using hout), if_pos hsym]

theorem normAxis_asym_eq (m : AxisMapping) (raw : Int) (hn : m.normalize = true)
    (hasym : ¬ m.output_min < 0)
    (hout : ¬ (0 < m.deadzone ∧ iabs raw ≤ m.deadzone)) :
    normAxisMapped true m raw =
      (if ((effMax true m - effMin true m : Int) : ℚ) = 0 then m.output_min
       else asymScale m (clampRange m (dzShrink true m raw)) (effMin true m)
              ((effMax true m - effMin true m : Int) : ℚ)) := by
  unfold normAxisMapped
  rw [if_neg (by simp [hn]), if_neg (by simpa using hout), if_neg hasym]

theorem symScale_mem (m : AxisMapping) (v2 M : Int)
    (h : m.output_min ≤ m.output_max) :
    m.output_min ≤ symScale m v2 M ∧ symScale m v2 M ≤ m.output_max := by
  unfold symScale
  rw [qmax_eq_max, qmin_eq_min]
  set n : ℚ := max (-1) (min 1 ((v2 : ℚ) / (M : ℚ))) with hn
  have h1 : (-1 : ℚ) ≤ n := le_max_left _ _
  have h2 : n ≤ 1 := max_le (by norm_num) (min_le_left _ _)
  constructor
  · nlinarith
  · nlinarith

theorem symScale_mono (m : AxisMapping) (v2 v2' M : Int) (hM : 0 < M)
    (hv : v2 ≤ v2') (h : m.output_min ≤ m.output_max) :
    symScale m v2 M ≤ symScale m v2' M := by
  unfold symScale
  rw [qmax_eq_max, qmin_eq_min, qmax_eq_max, qmin_eq_min]
  have hMq : (0 : ℚ) < (M : ℚ) := by exact_mod_cast hM
  have hdiv : (v2 : ℚ) / (M : ℚ) ≤ (v2' : ℚ) / (M : ℚ) := by
    apply div_le_div_of_nonneg_right ?_ hMq.le
    exact_mod_cast hv
  have hmono : max (-1 : ℚ) (min 1 ((v2 : ℚ) / (M : ℚ))) ≤
      max (-1 : ℚ) (min 1 ((v2' : ℚ) / (M : ℚ))) :=
    max_le_max le_rfl (min_le_min le_rfl hdiv)
  set a : ℚ := max (-1 : ℚ) (min 1 ((v2 : ℚ) / (M : ℚ)))
  set b : ℚ := max (-1 : ℚ) (min 1 ((v2' : ℚ) / (M : ℚ)))
  have : ((a + 1) / 2) * (m.output_max - m.output_min) ≤
      ((b + 1) / 2) * (m.output_max - m.output_min) := by
    apply mul_le_mul_of_nonneg_right (by linarith) (by linarith)
  linarith

theorem clampRange_mono (m : AxisMapping) (v w : Int) (hvw : v ≤ w) :
    clampRange m v ≤ clampRange m w := by
  unfold clampRange
  rw [imax_eq_max, imax_eq_max, imin_eq_min, imin_eq_min]
  exact max_le_max le_rfl (min_le_min le_rfl hvw)

theorem clampRange_mem (m : AxisMapping) (v : Int) (h : m.min ≤ m.max) :
    m.min ≤ clampRange m v ∧ clampRange m v ≤ m.max := by
  unfold clampRange
  rw [imax_eq_max, imin_eq_min]
  exact ⟨le_max_left _ _, max_le h (min_le_left _ _)⟩

theorem dzShrink_mono (m : AxisMapping) (v w : Int) (hv : m.deadzone < iabs v)
    (hw : m.deadzone < iabs w) (hvw : v ≤ w) :
    dzShrink true m v ≤ dzShrink true m w := by
  simp only [iabs] at hv hw
  rw [dzShrink_true, dzShrink_true]
  split_ifs at hv hw ⊢ <;> omega

/-- In the symmetric case the output is always inside
`[output_min, output_max]` (the clamp of the scaled value to `[-1, 1]`). -/
theorem normAxis_sym_mem (m : AxisMapping) (raw : Int) (hn : m.normalize = true)
    (hsym : m.output_min < 0) (hmax : 0 ≤ m.output_max) :
    m.output_min ≤ normAxisMapped true m raw ∧
      normAxisMapped true m raw ≤ m.output_max := by
  by_cases hdz : 0 < m.deadzone ∧ iabs raw ≤ m.deadzone
  · rw [normAxis_dz_zero m raw hn hdz.1 hdz.2]
    exact ⟨hsym.le, hmax⟩
  · rw [normAxis_sym_eq m raw hn hsym hdz]
    split_ifs with hM
    · exact ⟨hsym.le, hmax⟩
    · exact symScale_mem m _ _ (hsym.le.trans hmax)

/-- In the symmetric case the map is monotone on raw values outside the
deadzone (in particular on each side of 0). -/
theorem normAxis_sym_mono (m : AxisMapping) (v w : Int) (hn : m.normalize = true)
    (hsym : m.output_min < 0) (hole : m.output_min ≤ m.output_max)
    (hv : m.deadzone < iabs v) (hw : m.deadzone < iabs w) (hvw : v ≤ w) :
    normAxisMapped true m v ≤ normAxisMapped true m w := by
  have hv' : ¬ (0 < m.deadzone ∧ iabs v ≤ m.deadzone) := by
    rintro ⟨h1, h2⟩
    omega
  have hw' : ¬ (0 < m.deadzone ∧ iabs w ≤ m.deadzone) := by
    rintro ⟨h1, h2⟩
    omega
  rw [normAxis_sym_eq m v hn hsym hv', normAxis_sym_eq m w hn hsym hw']
  split_ifs with hM
  · exact le_refl _
  · have hM0 : 0 ≤ imax (iabs (effMax true m)) (iabs (effMin true m)) := by
      rw [imax_eq_max]
      exact le_trans (iabs_nonneg _) (le_max_left _ _)
    apply symScale_mono m _ _ _ (lt_of_le_of_ne hM0 (Ne.symm hM))
      (clampRange_mono m _ _ (dzShrink_mono m v w hv hw hvw)) hole

/-- Raw `min` reaches `output_min` in the symmetric case provided the
negative side dominates: `|effMin| ≥ |effMax|` (and `effMin < 0`). -/
theorem normAxis_sym_min_endpoint (m : AxisMapping) (hn : m.normalize = true)
    (hsym : m.output_min < 0) (h1 : effMin true m < 0)
    (h3 : iabs (effMax true m) ≤ -effMin true m) :
    normAxisMapped true m m.min = m.output_min := by
  have hemin := effMin_true m
  have hemax := effMax_true m
  have hout : ¬ (0 < m.deadzone ∧ iabs m.min ≤ m.deadzone) := by
    rintro ⟨a, b⟩
    rw [hemin, if_pos a] at h1
    simp only [iabs] at b
    split_ifs at b <;> omega
  rw [normAxis_sym_eq m m.min hn hsym hout]
  have hsh : dzShrink true m m.min = effMin true m := by
    rw [dzShrink_true, hemin]
    split_ifs with h h2
    · rw [hemin, if_pos h] at h1
      omega
    · rfl
    · rfl
  have heminmax : effMin true m ≤ effMax true m := by
    have : -effMax true m ≤ iabs (effMax true m) := by
      unfold iabs
      split_ifs <;> omega
    omega
  have hclamp : clampRange m (effMin true m) = effMin true m := by
    unfold clampRange
    rw [imin_eq_min, imax_eq_max]
    have hlo : m.min ≤ effMin true m := by
      rw [hemin]
      split_ifs <;> omega
    have hhi : effMin true m ≤ m.max := by
      have : effMax true m ≤ m.max := by
        rw [hemax]
        split_ifs <;> omega
      omega
    rw [min_eq_right hhi, max_eq_right hlo]
  have habs : iabs (effMin true m) = -effMin true m := by
    unfold iabs
    rw [if_pos h1]
  have hM : imax (iabs (effMax true m)) (iabs (effMin true m)) = -effMin true m := by
    rw [imax_eq_max, habs]
    exact max_eq_right h3
  rw [hsh, hclamp, hM, if_neg (by omega)]
  unfold symScale
  have hne : ((effMin true m : Int) : ℚ) ≠ 0 := by
    exact_mod_cast h1.ne
  have hq : ((effMin true m : Int) : ℚ) / ((-effMin true m : Int) : ℚ) = -1 := by
    push_cast
    rw [div_neg, div_self hne]
  rw [hq, qmin_eq_min, qmax_eq_max]
  rw [min_eq_right (by norm_num), max_self]
  ring

/-- Raw `max` reaches `output_max` in the symmetric case provided the
positive side dominates: `|effMax| ≥ |effMin|` (and `effMax > 0`). -/
theorem normAxis_sym_max_endpoint (m : AxisMapping) (hn : m.normalize = true)
    (hsym : m.output_min < 0) (h1 : 0 < effMax true m)
    (h3 : iabs (effMin true m) ≤ effMax true m) :
    normAxisMapped true m m.max = m.output_max := by
  have hemin := effMin_true m
  have hemax := effMax_true m
  have hout : ¬ (0 < m.deadzone ∧ iabs m.max ≤ m.deadzone) := by
    rintro ⟨a, b⟩
    rw [hemax, if_pos a] at h1
    simp only [iabs] at b
    split_ifs at b <;> omega
  rw [normAxis_sym_eq m m.max hn hsym hout]
  have hsh : dzShrink true m m.max = effMax true m := by
    rw [dzShrink_true, hemax]
    split_ifs with h h2
    · rfl
    · rw [hemax, if_pos h] at h1
      omega
    · rfl
  have heminmax : effMin true m ≤ effMax true m := by
    have : -effMin true m ≤ iabs (effMin true m) := by
      unfold iabs
      split_ifs <;> omega
    have : effMin true m ≤ iabs (effMin true m) := by
      unfold iabs
      split_ifs <;> omega
    omega
  have hclamp : clampRange m (effMax true m) = effMax true m := by
    unfold clampRange
    rw [imin_eq_min, imax_eq_max]
    have hlo : m.min ≤ effMax true m := by
      have : m.min ≤ effMin true m := by
        rw [hemin]
        split_ifs <;> omega
      omega
    have hhi : effMax true m ≤ m.max := by
      rw [hemax]
      split_ifs <;> omega
    rw [min_eq_right hhi, max_eq_right hlo]
  have habs : iabs (effMax true m) = effMax true m := by
    unfold iabs
    rw [if_neg (by omega)]
  have hM : imax (iabs (effMax true m)) (iabs (effMin true m)) = effMax true m := by
    rw [imax_eq_max, habs]
    exact max_eq_left h3
  rw [hsh, hclamp, hM, if_neg (by omega)]
  unfold symScale
  have hne : ((effMax true m : Int) : ℚ) ≠ 0 := by
    exact_mod_cast h1.ne.symm
  have hq : ((effMax true m : Int) : ℚ) / ((effMax true m : Int) : ℚ) = 1 :=
    div_self hne
  rw [hq, qmin_eq_min, qmax_eq_max]
  rw [min_self, max_eq_right (by norm_num)]
  ring

/-- Asymmetric case with no deadzone (e.g. triggers): endpoints, containment
and monotonicity all hold as in the spec. -/
theorem normAxis_asym_nodz (m : AxisMapping) (hn : m.normalize = true)
    (hasym : ¬ m.output_min < 0) (hole : m.output_min ≤ m.output_max)
    (hdz : m.deadzone ≤ 0) (hmm : m.min < m.max) :
    normAxisMapped true m m.min = m.output_min ∧
      normAxisMapped true m m.max = m.output_max ∧
      (∀ v : Int, m.output_min ≤ normAxisMapped true m v ∧
        normAxisMapped true m v ≤ m.output_max) ∧
      (∀ v w : Int, v ≤ w → normAxisMapped true m v ≤ normAxisMapped true m w) := by
  have hout : ∀ v : Int, ¬ (0 < m.deadzone ∧ iabs v ≤ m.deadzone) := by
    rintro v ⟨a, _⟩
    omega
  have hEmax : effMax true m = m.max := by
    rw [effMax_true, if_neg (by omega)]
  have hEmin : effMin true m = m.min := by
    rw [effMin_true, if_neg (by omega)]
  have hSh : ∀ v : Int, dzShrink true m v = v := by
    intro v
    rw [dzShrink_true, if_neg (by omega)]
  have hRpos : (0 : ℚ) < ((m.max - m.min : Int) : ℚ) := by
    have : (0 : Int) < m.max - m.min := by omega
    exact_mod_cast this
  have key : ∀ v : Int, normAxisMapped true m v =
      asymScale m (clampRange m v) m.min ((m.max - m.min : Int) : ℚ) := by
    intro v
    rw [normAxis_asym_eq m v hn hasym (hout v), hEmax, hEmin, hSh, if_neg hRpos.ne.symm]
  have hmem : ∀ v : Int, m.min ≤ clampRange m v ∧ clampRange m v ≤ m.max :=
    fun v => clampRange_mem m v hmm.le
  refine ⟨?_, ?_, ?_, ?_⟩
  · rw [key m.min]
    have hc : clampRange m m.min = m.min := by
      unfold clampRange
      rw [imin_eq_min, imax_eq_max, min_eq_right hmm.le, max_self]
    rw [hc]
    unfold asymScale
    norm_num
  · rw [key m.max]
    have hc : clampRange m m.max = m.max := by
      unfold clampRange
      rw [imin_eq_min, imax_eq_max, min_self, max_eq_right hmm.le]
    rw [hc]
    unfold asymScale
    rw [div_self hRpos.ne.symm]
    ring
  · intro v
    rw [key v]
    unfold asymScale
    have h0 : (0 : ℚ) ≤ ((clampRange m v - m.min : Int) : ℚ) := by
      have : (0 : Int) ≤ clampRange m v - m.min := by
        have := (hmem v).1
        omega
      exact_mod_cast this
    have h1 : ((clampRange m v - m.min : Int) : ℚ) ≤ ((m.max - m.min : Int) : ℚ) := by
      have : clampRange m v - m.min ≤ m.max - m.min := by
        have := (hmem v).2
        omega
      exact_mod_cast this
    have hn0 : (0 : ℚ) ≤ ((clampRange m v - m.min : Int) : ℚ) / ((m.max - m.min : Int) : ℚ) :=
      div_nonneg h0 hRpos.le
    have hn1 : ((clampRange m v - m.min : Int) : ℚ) / ((m.max - m.min : Int) : ℚ) ≤ 1 :=
      (div_le_one hRpos).2 h1
    constructor
    · nlinarith
    · nlinarith
  · intro v w hvw
    rw [key v, key w]
    unfold asymScale
    have hcle : ((clampRange m v - m.min : Int) : ℚ) ≤ ((clampRange m w - m.min : Int) : ℚ) := by
      have := clampRange_mono m v w hvw
      exact_mod_cast (by omega : clampRange m v - m.min ≤ clampRange m w - m.min)
    have hdivle : ((clampRange m v - m.min : Int) : ℚ) / ((m.max - m.min : Int) : ℚ) ≤
        ((clampRange m w - m.min : Int) : ℚ) / ((m.max - m.min : Int) : ℚ) :=
      div_le_div_of_nonneg_right hcle hRpos.le
    have := mul_le_mul_of_nonneg_right hdivle (by linarith : (0 : ℚ) ≤ m.output_max - m.output_min)
    linarith

/-- The S2 trigger record `{min=0, max=1023, deadzone=0, normalize=true,
output_min=0.0, output_max=1.0}`. -/
def s2Axis : AxisMapping :=
  { code := 2, min := 0, max := 1023, deadzone := 0,
    normalize := true, output_min := 0, output_max := 1 }

/-- Claim C3 (counterexample): on the claim's own record
`{min=-32768, max=32767, deadzone=8000, normalize=true, output_min=-1,
output_max=1}`, raw `32767` maps to `24767/24768 ≈ 0.99996`, not to
`output_max = 1.0`: the code divides by
`max(|max-deadzone|, |min+deadzone|) = 24768` while the positive side only
reaches `24767`. -/
theorem C3_counterexample :
    normAxisMapped true s1Axis 32767 = 24767 / 24768 ∧
      ¬ normAxisMapped true s1Axis 32767 = 1 := by
  have h : normAxisMapped true s1Axis 32767 = 24767 / 24768 := by
    norm_num [normAxisMapped, s1Axis, effMax, effMin, dzShrink, clampRange, symScale,
      asymScale, imin, imax, iabs, qmin, qmax]
  refine ⟨h, ?_⟩
  rw [h]
  norm_num

/-- Claim C3 (amended): for every axis record with `normalize=true` under the
default `apply_deadzone`: (1) any raw value inside a positive deadzone yields
`0.0` — in the asymmetric case as well, not `output_min`; (2) in the
symmetric case (`output_min < 0 ≤ output_max`) the result lies in
`[output_min, output_max]`; (3) and it is monotone outside the deadzone (in
particular on each side of 0); (4) raw `min` maps to `output_min` only when
the negative effective side dominates (`|min+deadzone| ≥ |max−deadzone|`);
(5) raw `max` maps to `output_max` only when the positive effective side
dominates; (6) in the asymmetric case with no deadzone, `min ↦ output_min`,
`max ↦ output_max`, the result stays in `[output_min, output_max]` and is
monotone; (7) on the S1 record raw `8000 ↦ 0.0`, `-32768 ↦ -1.0`, and
`32767 ↦ 24767/24768` (not `1.0`). -/
theorem C3_normalization_amended :
    (∀ (m : AxisMapping) (raw : Int), m.normalize = true → 0 < m.deadzone →
        iabs raw ≤ m.deadzone → normAxisMapped true m raw = 0) ∧
      (∀ (m : AxisMapping) (raw : Int), m.normalize = true → m.output_min < 0 →
        0 ≤ m.output_max →
        m.output_min ≤ normAxisMapped true m raw ∧
          normAxisMapped true m raw ≤ m.output_max) ∧
      (∀ (m : AxisMapping) (v w : Int), m.normalize = true → m.output_min < 0 →
        m.output_min ≤ m.output_max → m.deadzone < iabs v → m.deadzone < iabs w →
        v ≤ w → normAxisMapped true m v ≤ normAxisMapped true m w) ∧
      (∀ m : AxisMapping, m.normalize = true → m.output_min < 0 →
        effMin true m < 0 → iabs (effMax true m) ≤ -effMin true m →
        normAxisMapped true m m.min = m.output_min) ∧
      (∀ m : AxisMapping, m.normalize = true → m.output_min < 0 →
        0 < effMax true m → iabs (effMin true m) ≤ effMax true m →
        normAxisMapped true m m.max = m.output_max) ∧
      (∀ m : AxisMapping, m.normalize = true → ¬ m.output_min < 0 →
        m.output_min ≤ m.output_max → m.deadzone ≤ 0 → m.min < m.max →
        normAxisMapped true m m.min = m.output_min ∧
          normAxisMapped true m m.max = m.output_max ∧
          (∀ v : Int, m.output_min ≤ normAxisMapped true m v ∧
            normAxisMapped true m v ≤ m.output_max) ∧
          (∀ v w : Int, v ≤ w →
            normAxisMapped true m v ≤ normAxisMapped true m w)) ∧
      (normAxisMapped true s1Axis 8000 = 0 ∧
        normAxisMapped true s1Axis (-32768) = -1 ∧
        normAxisMapped true s1Axis 32767 = 24767 / 24768) := by
  refine ⟨normAxis_dz_zero, normAxis_sym_mem, normAxis_sym_mono,
    normAxis_sym_min_endpoint, normAxis_sym_max_endpoint, normAxis_asym_nodz,
    ?_, ?_, ?_⟩
  · norm_num [normAxisMapped, s1Axis, effMax, effMin, dzShrink, clampRange, symScale,
      asymScale, imin, imax, iabs, qmin, qmax]
  · norm_num [normAxisMapped, s1Axis, effMax, effMin, dzShrink, clampRange, symScale,
      asymScale, imin, imax, iabs, qmin, qmax]
  · norm_num [normAxisMapped, s1Axis, effMax, effMin, dzShrink, clampRange, symScale,
      asymScale, imin, imax, iabs, qmin, qmax]

/-- Witness for `C3_normalization_amended`: concrete instantiations of the
deadzone, symmetric-endpoint and asymmetric-endpoint conjuncts. -/
theorem C3_witness :
    (s1Axis.normalize = true ∧ 0 < s1Axis.deadzone ∧ iabs 500 ≤ s1Axis.deadzone ∧
        normAxisMapped true s1Axis 500 = 0) ∧
      (s1Axis.output_min < 0 ∧ effMin true s1Axis < 0 ∧
        iabs (effMax true s1Axis) ≤ -effMin true s1Axis ∧
        normAxisMapped true s1Axis s1Axis.min = s1Axis.output_min) ∧
      (¬ s2Axis.output_min < 0 ∧ s2Axis.output_min ≤ s2Axis.output_max ∧
        s2Axis.deadzone ≤ 0 ∧ s2Axis.min < s2Axis.max ∧
        normAxisMapped true s2Axis s2Axis.min = s2Axis.output_min ∧
        normAxisMapped true s2Axis s2Axis.max = s2Axis.output_max) := by
  have hn1 : s1Axis.normalize = true := rfl
  have hdz1 : 0 < s1Axis.deadzone := by simp [s1Axis]
  have hin1 : iabs 500 ≤ s1Axis.deadzone := by simp [iabs, s1Axis]
  have hsym1 : s1Axis.output_min < 0 := by simp [s1Axis]
  have hemin1 : effMin true s1Axis < 0 := by simp [effMin_true, s1Axis]
  have hemax1 : iabs (effMax true s1Axis) ≤ -effMin true s1Axis := by
    simp [effMax_true, effMin_true, iabs, s1Axis]
  have hn2 : s2Axis.normalize = true := rfl
  have hasym2 : ¬ s2Axis.output_min < 0 := by simp [s2Axis]
  have hout2 : s2Axis.output_min ≤ s2Axis.output_max := by simp [s2Axis]
  have hdz2 : s2Axis.deadzone ≤ 0 := by simp [s2Axis]
  have hmm2 : s2Axis.min < s2Axis.max := by simp [s2Axis]
  have h6 := C3_normalization_amended.2.2.2.2.2.1 s2Axis hn2 hasym2 hout2 hdz2 hmm2
  exact ⟨⟨hn1, hdz1, hin1, C3_normalization_amended.1 s1Axis 500 hn1 hdz1 hin1⟩,
    ⟨hsym1, hemin1, hemax1,
      C3_normalization_amended.2.2.2.1 s1Axis hn1 hsym1 hemin1 hemax1⟩,
    ⟨hasym2, hout2, hdz2, hmm2, h6.1, h6.2.1⟩⟩

end XboxControl

namespace XboxControl

/-! ## Controller configs, device-name matching, admission
(`controller_config.cpp`, `xbox_udp_publisher.cpp`, `joystick.cpp`). -/

/-- ASCII `::tolower`, as applied by `std::transform` over the name. -/
def charLower (c : Char) : Char :=
  if 'A' ≤ c ∧ c ≤ 'Z' then Char.ofNat (c.toNat + 32) else c

/-- Lowercase a device name / pattern. -/
def lowerStr (s : List Char) : List Char := s.map charLower

/-- Does `pat` match at the head of `hay`? -/
def leadMatch : List Char → List Char → Bool
  | [], _ => true
  | _ :: _, [] => false
  | p :: ps, h :: hs => p = h && leadMatch ps hs

/-- `text.find(pattern) != npos`: substring containment search. -/
def containsSub (hay pat : List Char) : Bool :=
  match hay with
  | [] => leadMatch pat []
  | _ :: rest => leadMatch pat hay || containsSub rest pat

/-- A parsed `ControllerConfig` (the fields the pipeline reads). -/
structure CtrlConfig where
  name : List Char
  vendor_patterns : List (List Char)
  exclude_patterns : List (List Char)
  axes : List AxisMapping
  apply_deadzone : Bool

/-- `ControllerConfig::matchesPattern` (controller_config.cpp 120–129):
some pattern, lowercased, occurs as a substring of `text`. -/
def matchesPattern (text : List Char) (patterns : List (List Char)) : Bool :=
  patterns.any (fun p => containsSub text (lowerStr p))

/-- `ControllerConfig::matchesDevice` (controller_config.cpp 107–118):
lowercase the name; an exclude-pattern hit vetoes, else a vendor-pattern
hit accepts. -/
def matchesDevice (c : CtrlConfig) (device_name : List Char) : Bool :=
  if matchesPattern (lowerStr device_name) c.exclude_patterns then false
  else matchesPattern (lowerStr device_name) c.vendor_patterns

/-- `ConfigManager::detectConfig` (controller_config.cpp 257–277) over the
loaded config directory: the first config matching the device name wins. -/
def detectConfig (configs : List CtrlConfig) (device_name : List Char) :
    Option CtrlConfig :=
  configs.find? (fun c => matchesDevice c device_name)

/-- `ControllerBase::create` (controller_base.cpp 24–40) returns a
controller iff the handle carries a config: `if (!handle.config) return
nullptr;` precedes the "default to XboxController for generic gamepads"
fallback, which is therefore unreachable for config-less handles. -/
def createOk (config : Option CtrlConfig) : Bool := config.isSome

/-- Admission decision for one candidate in the standalone publisher's
`scan_controllers` (xbox_udp_publisher.cpp 162–170): a matching config
admits; otherwise only a generic gamepad — at least one key-event capability
and at least one absolute-axis capability — is admitted. -/
def pubAdmits (configs : List CtrlConfig) (device_name : List Char)
    (hasKey hasAbs : Bool) : Bool :=
  (detectConfig configs device_name).isSome || (hasKey && hasAbs)

/-- Admission decision for one candidate in the joystick manager's
`scan_controllers` (joystick.cpp 97–124): same gamepad check, but the
candidate is then closed and skipped when `ControllerBase::create` returns
null (i.e. whenever it has no config). -/
def joyAdmits (configs : List CtrlConfig) (device_name : List Char)
    (hasKey hasAbs : Bool) : Bool :=
  ((detectConfig configs device_name).isSome || (hasKey && hasAbs)) &&
    createOk (detectConfig configs device_name)

/-! ## Input events and outgoing packets
(`controller_base.cpp`, `xbox_udp_publisher.cpp`, `joystick.cpp`). -/

/-- A Linux `input_event` as read from a device. -/
structure InputEvent where
  etype : Nat
  code : Nat
  value : Int
  sec : Nat
  usec : Nat

/-- The semantic content of an outgoing `InputEventPacket` (the `double`
field carried as its exact rational value). -/
structure EventPacket where
  magic : Nat
  device_id : Nat
  etype : Nat
  code : Nat
  value : Int
  normalized : ℚ
  sec : Nat
  usec : Nat

/-- `ControllerConfig::normalizeAxis` including the `getAxisMapping` lookup
(controller_config.cpp 154–165).  `buildLookupMaps` fills `axis_map_` in
declaration order, so a later record with the same code overwrites an
earlier one — hence lookup over the reversed list. -/
def cfgNormalizeAxis (c : CtrlConfig) (code : Nat) (raw : Int) : ℚ :=
  match c.axes.reverse.find? (fun m => m.code = code) with
  | none => (raw : ℚ)
  | some m => normAxisMapped c.apply_deadzone m raw

/-- `ControllerBase::normalizeAxisValue` (controller_base.cpp 42–47):
identity cast when the handle has no config. -/
def normalizeAxisValue (config : Option CtrlConfig) (code : Nat) (raw : Int) : ℚ :=
  match config with
  | none => (raw : ℚ)
  | some c => cfgNormalizeAxis c code raw

/-- `XboxController::processEvent` (controller_base.cpp 58–75): fills every
packet field and sets `normalized` — the §4.2 normalization for `EV_ABS`,
the raw value cast to floating point otherwise. -/
def processEvent (config : Option CtrlConfig) (device_id : Nat)
    (ev : InputEvent) : EventPacket :=
  { magic := PACKET_MAGIC, device_id := device_id, etype := ev.etype,
    code := ev.code, value := ev.value,
    normalized :=
      if ev.etype = EV_ABS then normalizeAxisValue config ev.code ev.value
      else (ev.value : ℚ),
    sec := ev.sec, usec := ev.usec }

/-- The packet built inline by the standalone publisher main loop
(xbox_udp_publisher.cpp 404–411): `InputEventPacket pkt{}` zero-initializes
every field, and `normalized` is never assigned afterwards, so the
transmitted datagram always carries `normalized = 0.0`. -/
def publisherMkPacket (device_id : Nat) (ev : InputEvent) : EventPacket :=
  { magic := PACKET_MAGIC, device_id := device_id, etype := ev.etype,
    code := ev.code, value := ev.value, normalized := 0,
    sec := ev.sec, usec := ev.usec }

/-- Per-event transmit decision of the joystick manager loop
(joystick.cpp 240–247): `if (ev.type == EV_SYN) continue;` drops
synchronization events before packing. -/
def joyEmit (config : Option CtrlConfig) (device_id : Nat) (ev : InputEvent) :
    Option EventPacket :=
  if ev.etype = EV_SYN then none else some (processEvent config device_id ev)

/-- Per-event transmit decision of the standalone publisher loop
(xbox_udp_publisher.cpp 400–417): every event read — `EV_SYN` included —
is packed and sent. -/
def pubEmit (device_id : Nat) (ev : InputEvent) : Option EventPacket :=
  some (publisherMkPacket device_id ev)

end XboxControl

namespace XboxControl

/-- Claim C9: in the standalone publisher a config-less generic gamepad is
admitted — but in the joystick manager the same device passes the
generic-gamepad check and is then rejected by `ControllerBase::create`
(which nulls out config-less handles despite its own "default to
XboxController for generic gamepads" comment), so it is closed and skipped.
With no configs loaded, a "pad" device with key and axis capabilities is
admitted by the publisher and rejected by the joystick manager; in general
the publisher admits a config-less candidate iff it is a generic gamepad. -/
theorem C9_generic_gamepad_bug :
    detectConfig [] ['p', 'a', 'd'] = none ∧
      pubAdmits [] ['p', 'a', 'd'] true true = true ∧
      joyAdmits [] ['p', 'a', 'd'] true true = false ∧
      (∀ (configs : List CtrlConfig) (name : List Char) (hasKey hasAbs : Bool),
        detectConfig configs name = none →
        pubAdmits configs name hasKey hasAbs = (hasKey && hasAbs)) := by
  refine ⟨rfl, rfl, rfl, ?_⟩
  intro configs name hasKey hasAbs h
  simp [pubAdmits, h]

/-- Witness for `C9_generic_gamepad_bug`: the final conjunct applied with no
configs loaded. -/
theorem C9_witness :
    detectConfig [] ['p', 'a', 'd'] = none ∧
      pubAdmits [] ['p', 'a', 'd'] true true = (true && true) :=
  ⟨rfl, C9_generic_gamepad_bug.2.2.2 [] ['p', 'a', 'd'] true true rfl⟩

/-- Claim C2: the standalone publisher transmits `normalized = 0.0` for
every event — the packet is zero-initialized and the field never assigned —
whereas `XboxController::processEvent` (the documented behaviour) sets it to
the normalization for `EV_ABS` and the raw value cast to floating point
otherwise.  At an `EV_KEY` press (value 1) the wire carries `0.0` where the
claim requires `1.0`. -/
theorem C2_publisher_normalized_bug :
    (∀ (d : Nat) (ev : InputEvent), (publisherMkPacket d ev).normalized = 0) ∧
      (publisherMkPacket 0 ⟨EV_KEY, 304, 1, 0, 0⟩).normalized = 0 ∧
      (processEvent none 0 ⟨EV_KEY, 304, 1, 0, 0⟩).normalized = 1 ∧
      ¬ (0 : ℚ) = 1 := by
  refine ⟨fun d ev => rfl, rfl, ?_, by norm_num⟩
  simp [processEvent, normalizeAxisValue, EV_KEY, EV_ABS]

/-- Claim C8 (counterexample): the standalone publisher emits a datagram for
an `EV_SYN` event (nothing filters it before the `send`). -/
theorem C8_counterexample :
    pubEmit 0 ⟨EV_SYN, 0, 0, 5, 6⟩ =
        some (publisherMkPacket 0 ⟨EV_SYN, 0, 0, 5, 6⟩) ∧
      (publisherMkPacket 0 ⟨EV_SYN, 0, 0, 5, 6⟩).etype = EV_SYN :=
  ⟨rfl, rfl⟩

/-- Claim C8 (amended): the joystick manager drops every `EV_SYN` event
before packing, so each of its transmitted datagrams has type ≠ `EV_SYN`;
the standalone publisher, however, packs and transmits a datagram for every
event read, `EV_SYN` included. -/
theorem C8_syn_amended :
    (∀ (config : Option CtrlConfig) (d : Nat) (ev : InputEvent),
        ev.etype = EV_SYN → joyEmit config d ev = none) ∧
      (∀ (config : Option CtrlConfig) (d : Nat) (ev : InputEvent)
          (p : EventPacket),
        joyEmit config d ev = some p → ¬ p.etype = EV_SYN) ∧
      (∀ (d : Nat) (ev : InputEvent), pubEmit d ev = some (publisherMkPacket d ev)) := by
  refine ⟨?_, ?_, fun d ev => rfl⟩
  · intro config d ev h
    simp [joyEmit, h]
  · intro config d ev p h
    unfold joyEmit at h
    by_cases hsyn : ev.etype = EV_SYN
    · rw [if_pos hsyn] at h
      exact absurd h (by simp)
    · rw [if_neg hsyn] at h
      injection h with hp
      subst hp
      simpa [processEvent] using hsyn

/-- Witness for `C8_syn_amended`: an `EV_SYN` event is dropped by the
joystick manager, and an emitted `EV_KEY` packet has type ≠ `EV_SYN`. -/
theorem C8_witness :
    (⟨EV_SYN, 0, 0, 0, 0⟩ : InputEvent).etype = EV_SYN ∧
      joyEmit none 0 ⟨EV_SYN, 0, 0, 0, 0⟩ = none ∧
      joyEmit none 1 ⟨EV_KEY, 304, 1, 0, 0⟩ =
        some (processEvent none 1 ⟨EV_KEY, 304, 1, 0, 0⟩) ∧
      ¬ (processEvent none 1 ⟨EV_KEY, 304, 1, 0, 0⟩).etype = EV_SYN := by
  have hemit : joyEmit none 1 ⟨EV_KEY, 304, 1, 0, 0⟩ =
      some (processEvent none 1 ⟨EV_KEY, 304, 1, 0, 0⟩) := by
    simp [joyEmit, EV_KEY, EV_SYN]
  exact ⟨rfl, C8_syn_amended.1 none 0 _ rfl, hemit,
    C8_syn_amended.2.1 none 1 _ _ hemit⟩

end XboxControl

namespace XboxControl

/-! ## UDP receive paths (`udp_receiver.cpp`, `xbox_udp_publisher.cpp`).

A datagram is a byte list.  `recv(2)`/`recvfrom(2)` on a `SOCK_DGRAM`
socket with a fixed-size buffer copy at most `sizeof(pkt)` bytes, discard
any excess, and return the number of bytes copied (POSIX datagram
semantics) — so the `n == sizeof(pkt)` check in the code accepts any
datagram of at least the packet size. -/

/-- `recv` into a `bufSize`-byte buffer: bytes copied and buffer image. -/
def recvDatagram (bufSize : Nat) (d : List Nat) : Nat × List Nat :=
  (min d.length bufSize, d.take bufSize)

/-- Little-endian value of the `w` bytes starting at offset `off`. -/
def readLE (bytes : List Nat) (off w : Nat) : Nat :=
  match w with
  | 0 => 0
  | n + 1 => bytes.getD off 0 + 256 * readLE bytes (off + 1) n

/-- Event-socket handling in `UDPReceiver::poll` (udp_receiver.cpp
105–114): the event callback fires iff `recv` returned exactly
`sizeof(InputEventPacket)` bytes and `pkt.magic == PACKET_MAGIC`. -/
def receiverEventAccepts (d : List Nat) : Bool :=
  decide ((recvDatagram inputEventPacketSize d).1 = inputEventPacketSize ∧
    readLE (recvDatagram inputEventPacketSize d).2 0 4 = PACKET_MAGIC)

/-- Vibration-socket handling in `UDPReceiver::poll` (udp_receiver.cpp
116–125): the vibration callback fires iff `recv` returned exactly
`sizeof(VibrationPacket)` bytes and `pkt.magic == VIBRATION_MAGIC`. -/
def receiverVibAccepts (d : List Nat) : Bool :=
  decide ((recvDatagram vibrationPacketSize d).1 = vibrationPacketSize ∧
    readLE (recvDatagram vibrationPacketSize d).2 0 4 = VIBRATION_MAGIC)

/-- Vibration dispatch in the standalone publisher main loop
(xbox_udp_publisher.cpp 365–388): size and magic as above, and additionally
`pkt.device_id < controllers.size()` (the byte at offset 4) must index an
active controller, else the datagram is silently dropped. -/
def pubVibDispatches (numControllers : Nat) (d : List Nat) : Bool :=
  decide ((recvDatagram vibrationPacketSize d).1 = vibrationPacketSize ∧
    readLE (recvDatagram vibrationPacketSize d).2 0 4 = VIBRATION_MAGIC ∧
    readLE (recvDatagram vibrationPacketSize d).2 4 1 < numControllers)

/-- The accepted datagram, if any, of one socket's queue during one poll:
only the head datagram is received. -/
def acceptedHead (accepts : List Nat → Bool) (q : List (List Nat)) :
    Option (List Nat) :=
  match q with
  | [] => none
  | d :: _ => if accepts d then some d else none

/-- One `UDPReceiver::poll` call over the two socket queues (udp_receiver.cpp
89–126): a single `recv` per readable socket — the head datagram of each
queue is consumed and possibly dispatched, the rest stay queued. -/
def pollOnce (eventQueue vibQueue : List (List Nat)) :
    (Option (List Nat) × Option (List Nat)) × List (List Nat) × List (List Nat) :=
  ((acceptedHead receiverEventAccepts eventQueue,
    acceptedHead receiverVibAccepts vibQueue),
   eventQueue.tail, vibQueue.tail)

end XboxControl

namespace XboxControl

/-- Claim C4 (counterexample): a 30-byte datagram with a valid leading magic
is accepted by the event path (`recv` truncates it to the 29-byte buffer, so
`n == sizeof(pkt)` holds although the datagram size is not exact), and a
valid 13-byte vibration datagram for `device_id 0` is *not* dispatched by
the publisher when no controller is active. -/
theorem C4_counterexample :
    receiverEventAccepts
        ([88, 66, 67, 49] ++ List.replicate 26 0) = true ∧
      ([88, 66, 67, 49] ++ List.replicate 26 (0 : Nat)).length = 30 ∧
      ¬ (30 : Nat) = 29 ∧
      receiverVibAccepts [88, 82, 66, 86, 0, 1, 0, 1, 0, 100, 0, 0, 0] = true ∧
      pubVibDispatches 0 [88, 82, 66, 86, 0, 1, 0, 1, 0, 100, 0, 0, 0] = false := by
  refine ⟨?_, ?_, by decide, ?_, ?_⟩ <;> decide

/-- Claim C4 (amended): each receive path accepts a datagram iff its length
is at least the fixed packet size (the kernel truncates longer datagrams to
the receive buffer, so the exact-size check passes for any length ≥ the
packet size; shorter datagrams fail it) and the leading 4-byte magic
matches; on the publisher's vibration path the command is additionally
dispatched only when `device_id` indexes an active controller.  Any other
datagram is dropped with no callback, and each poll consumes exactly the
head of each socket queue, leaving the rest for subsequent iterations. -/
theorem C4_validation_amended :
    (∀ d : List Nat, receiverEventAccepts d = true ↔
        inputEventPacketSize ≤ d.length ∧
          readLE (d.take inputEventPacketSize) 0 4 = PACKET_MAGIC) ∧
      (∀ d : List Nat, receiverVibAccepts d = true ↔
        vibrationPacketSize ≤ d.length ∧
          readLE (d.take vibrationPacketSize) 0 4 = VIBRATION_MAGIC) ∧
      (∀ (numControllers : Nat) (d : List Nat),
        pubVibDispatches numControllers d = true ↔
          vibrationPacketSize ≤ d.length ∧
            readLE (d.take vibrationPacketSize) 0 4 = VIBRATION_MAGIC ∧
            readLE (d.take vibrationPacketSize) 4 1 < numControllers) ∧
      (∀ eventQueue vibQueue : List (List Nat),
        (pollOnce eventQueue vibQueue).2.1 = eventQueue.tail ∧
          (pollOnce eventQueue vibQueue).2.2 = vibQueue.tail) := by
  refine ⟨?_, ?_, ?_, fun _ _ => ⟨rfl, rfl⟩⟩
  · intro d
    simp only [receiverEventAccepts, recvDatagram, decide_eq_true_eq]
    constructor
    · rintro ⟨h1, h2⟩
      exact ⟨by omega, h2⟩
    · rintro ⟨h1, h2⟩
      exact ⟨by omega, h2⟩
  · intro d
    simp only [receiverVibAccepts, recvDatagram, decide_eq_true_eq]
    constructor
    · rintro ⟨h1, h2⟩
      exact ⟨by omega, h2⟩
    · rintro ⟨h1, h2⟩
      exact ⟨by omega, h2⟩
  · intro numControllers d
    simp only [pubVibDispatches, recvDatagram, decide_eq_true_eq]
    constructor
    · rintro ⟨h1, h2, h3⟩
      exact ⟨by omega, h2, h3⟩
    · rintro ⟨h1, h2, h3⟩
      exact ⟨by omega, h2, h3⟩

/-- Claim C10: each poll invocation handles at most one datagram per socket:
the remaining queue after one poll is exactly the tail (so `k` queued
datagrams need `k` poll iterations), and any dispatched vibration command
comes from the single head datagram. -/
theorem C10_single_datagram_per_poll :
    (∀ eventQueue vibQueue : List (List Nat),
        ((pollOnce eventQueue vibQueue).2.1).length = eventQueue.length - 1 ∧
          ((pollOnce eventQueue vibQueue).2.2).length = vibQueue.length - 1) ∧
      (∀ (eventQueue vibQueue : List (List Nat)) (d : List Nat),
        (pollOnce eventQueue vibQueue).1.2 = some d → d ∈ vibQueue.take 1) ∧
      (∀ (d1 d2 : List Nat) (rest eventQueue : List (List Nat)),
        (pollOnce eventQueue (d1 :: d2 :: rest)).2.2 = d2 :: rest) := by
  refine ⟨?_, ?_, fun _ _ _ _ => rfl⟩
  · intro eventQueue vibQueue
    exact ⟨by simp [pollOnce], by simp [pollOnce]⟩
  · intro eventQueue vibQueue d h
    cases vibQueue with
    | nil => simp [pollOnce, acceptedHead] at h
    | cons d0 rest =>
      simp only [pollOnce, acceptedHead] at h
      by_cases hacc : receiverVibAccepts d0 = true
      · rw [if_pos hacc] at h
        injection h with hd
        subst hd
        simp [List.take]
      · rw [if_neg hacc] at h
        exact absurd h (by simp)

/-- Witness for `C10_single_datagram_per_poll`: a queue of two valid
vibration datagrams yields the head as the dispatched command and leaves the
second datagram queued. -/
theorem C10_witness :
    (pollOnce [] [[88, 82, 66, 86, 0, 1, 0, 1, 0, 100, 0, 0, 0],
          [88, 82, 66, 86, 0, 2, 0, 2, 0, 100, 0, 0, 0]]).1.2 =
        some [88, 82, 66, 86, 0, 1, 0, 1, 0, 100, 0, 0, 0] ∧
      [88, 82, 66, 86, 0, 1, 0, 1, 0, 100, 0, 0, 0] ∈
        ([[88, 82, 66, 86, 0, 1, 0, 1, 0, 100, 0, 0, 0],
          [88, 82, 66, 86, 0, 2, 0, 2, 0, 100, 0, 0, 0]] :
            List (List Nat)).take 1 := by
  have h : (pollOnce [] [[88, 82, 66, 86, 0, 1, 0, 1, 0, 100, 0, 0, 0],
      [88, 82, 66, 86, 0, 2, 0, 2, 0, 100, 0, 0, 0]]).1.2 =
        some [88, 82, 66, 86, 0, 1, 0, 1, 0, 100, 0, 0, 0] := by
    decide
  exact ⟨h, C10_single_datagram_per_poll.2.1 [] _ _ h⟩

end XboxControl

namespace XboxControl

/-! ## Device-id assignment across rescans
(xbox_udp_publisher.cpp 319–332 and joystick.cpp 126–132).

Each admitted handle receives `static_cast<uint8_t>(controllers.size())`
(equivalently `next_device_id++` on a `uint8_t`), i.e. the current handle
count reduced mod 256; handles are never removed from the active set. -/

/-- One rescan tick admitting `k` new devices appends ids
`n % 256, (n+1) % 256, …` after the `n` existing handles. -/
def admitBatch (ids : List Nat) (k : Nat) : List Nat :=
  ids ++ (List.range k).map (fun i => (ids.length + i) % 256)

/-- The device ids of the active set after rescan ticks admitting
`ks = [k₁, k₂, …]` devices respectively, from a cold start. -/
def runTicks (ks : List Nat) : List Nat :=
  ks.foldl admitBatch []

theorem admitBatch_range (n k : Nat) :
    admitBatch ((List.range n).map (· % 256)) k =
      (List.range (n + k)).map (· % 256) := by
  unfold admitBatch
  rw [List.length_map, List.length_range, List.range_add, List.map_append,
    List.map_map]
  rfl

theorem runTicks_aux (ks : List Nat) : ∀ n : Nat,
    ks.foldl admitBatch ((List.range n).map (· % 256)) =
      (List.range (n + ks.sum)).map (· % 256) := by
  induction ks with
  | nil =>
    intro n
    simp
  | cons k ks ih =>
    intro n
    simp only [List.foldl_cons, List.sum_cons]
    rw [admitBatch_range, ih (n + k), Nat.add_assoc]

theorem runTicks_eq (ks : List Nat) :
    runTicks ks = (List.range ks.sum).map (· % 256) := by
  have h := runTicks_aux ks 0
  simpa [runTicks] using h

theorem runTicks_eq_range (ks : List Nat) (h : ks.sum ≤ 256) :
    runTicks ks = List.range ks.sum := by
  rw [runTicks_eq]
  have hcong : ∀ i ∈ List.range ks.sum, i % 256 = id i := by
    intro i hi
    rw [List.mem_range] at hi
    exact Nat.mod_eq_of_lt (by omega)
  rw [List.map_congr_left hcong, List.map_id]

end XboxControl

namespace XboxControl

set_option maxRecDepth 8000 in
/-- Claim C7 (counterexample): `device_id` is an 8-bit truncation of the
handle count, so in a run admitting 257 devices the 257th handle gets id
`256 % 256 = 0`, duplicating the first handle's id: the ids are neither
duplicate-free nor the contiguous prefix `0..256`. -/
theorem C7_counterexample :
    (runTicks [257]).length = 257 ∧
      (runTicks [257]).getD 0 999 = 0 ∧
      (runTicks [257]).getD 256 999 = 0 ∧
      ¬ (runTicks [257]).Nodup ∧
      ¬ runTicks [257] = List.range 257 := by
  refine ⟨?_, ?_, ?_, ?_, ?_⟩ <;> decide

/-- Claim C7 (amended): as long as at most 256 devices are admitted in a
process run, the device ids after any sequence of rescan ticks form the
contiguous prefix `0, 1, …, n−1` of the monotonic counter with no
duplicates; admitted handles keep their ids over later ticks (the earlier
id list is a prefix of every later one) and no id is ever freed or reused.
Beyond 256 admissions the 8-bit id wraps and duplicates. -/
theorem C7_device_ids_amended :
    (∀ ks : List Nat, ks.sum ≤ 256 → runTicks ks = List.range ks.sum) ∧
      (∀ ks : List Nat, ks.sum ≤ 256 → (runTicks ks).Nodup) ∧
      (∀ ks more : List Nat,
        runTicks ks = (runTicks (ks ++ more)).take (runTicks ks).length) := by
  refine ⟨runTicks_eq_range, ?_, ?_⟩
  · intro ks h
    rw [runTicks_eq_range ks h]
    exact List.nodup_range _
  · intro ks more
    rw [runTicks_eq, runTicks_eq, List.sum_append, List.length_map,
      List.length_range, ← List.map_take, List.take_range,
      Nat.min_eq_left (Nat.le_add_right _ _)]

/-- Witness for `C7_device_ids_amended`: two ticks admitting 2 then 3
devices yield ids `[0, 1, 2, 3, 4]`, duplicate-free. -/
theorem C7_witness :
    ([2, 3] : List Nat).sum ≤ 256 ∧
      runTicks [2, 3] = List.range ([2, 3] : List Nat).sum ∧
      (runTicks [2, 3]).Nodup := by
  have h : ([2, 3] : List Nat).sum ≤ 256 := by decide
  exact ⟨h, C7_device_ids_amended.1 [2, 3] h, C7_device_ids_amended.2.1 [2, 3] h⟩

end XboxControl

namespace XboxControl

/-! ## Force-feedback effect lifecycle
(`controller_base.cpp` 77–143, `xbox_udp_publisher.cpp` 208–270; dispatch
of valid vibration datagrams in joystick.cpp 176–191 and
xbox_udp_publisher.cpp 373–385). -/

/-- Kernel-side force-feedback state of one device: the uploaded effects
with their playing flag, and the id `EVIOCSFF` will assign next to an
`id = -1` upload. -/
structure FFDev where
  effects : List (Nat × Bool)
  nextId : Nat

/-- `EVIOCSFF` with `effect.id = -1`: the kernel allocates a fresh effect
slot (not playing) and writes the assigned id back into `effect.id`. -/
def ffUpload (dev : FFDev) : FFDev × Nat :=
  ({ effects := dev.effects ++ [(dev.nextId, false)], nextId := dev.nextId + 1 },
   dev.nextId)

/-- `write` of an `EV_FF` event with `value = 1`: start playing effect `k`. -/
def ffPlay (dev : FFDev) (k : Nat) : FFDev :=
  { dev with effects := dev.effects.map (fun e => if e.1 = k then (e.1, true) else e) }

/-- `write` of an `EV_FF` event with `value = 0`: stop effect `k`. -/
def ffStop (dev : FFDev) (k : Nat) : FFDev :=
  { dev with effects := dev.effects.map (fun e => if e.1 = k then (e.1, false) else e) }

/-- Number of effects currently playing on the device. -/
def playingCount (dev : FFDev) : Nat := (dev.effects.filter (fun e => e.2)).length

/-- Is effect `k` playing on the device? -/
def ffPlaying (dev : FFDev) (k : Nat) : Bool :=
  dev.effects.any (fun e => e.1 = k && e.2)

/-- Which syscalls succeed during one pass through the effect path. -/
structure VibEnv where
  fdOk : Bool
  gbitOk : Bool
  rumbleBit : Bool
  stopWriteOk : Bool
  uploadOk : Bool
  playWriteOk : Bool

/-- The environment in which every syscall succeeds. -/
def allOk : VibEnv := ⟨true, true, true, true, true, true⟩

/-- Commands the effect path issues to the device, in order. -/
inductive FFCmd where
  | queryCaps : FFCmd
  | writeStop : Nat → FFCmd
  | upload : Nat → FFCmd
  | writePlay : Nat → FFCmd
deriving DecidableEq

/-- One `XboxController::sendVibration` call (controller_base.cpp 77–130):
result flag, kernel state, `current_effect_id_`, and the issued command
trace.  The stop of the prior effect (lines 91–99) ignores its write's
result; `current_effect_id_ = effect.id` (line 116) happens after a
successful upload but *before* the play write. -/
def xcSendVibration (env : VibEnv) (dev : FFDev) (cur : Int) :
    Bool × FFDev × Int × List FFCmd :=
  if env.fdOk = false then (false, dev, cur, [])
  else if env.gbitOk = false then (false, dev, cur, [FFCmd.queryCaps])
  else if env.rumbleBit = false then (false, dev, cur, [FFCmd.queryCaps])
  else
    let stopPart : FFDev × List FFCmd :=
      if 0 ≤ cur then
        ((if env.stopWriteOk = true then ffStop dev cur.toNat else dev),
          [FFCmd.writeStop cur.toNat])
      else (dev, [])
    if env.uploadOk = false then
      (false, stopPart.1, cur, FFCmd.queryCaps :: stopPart.2)
    else
      if env.playWriteOk = false then
        (false, (ffUpload stopPart.1).1, ((ffUpload stopPart.1).2 : Int),
          FFCmd.queryCaps :: stopPart.2 ++ [FFCmd.upload (ffUpload stopPart.1).2])
      else
        (true, ffPlay (ffUpload stopPart.1).1 (ffUpload stopPart.1).2,
          ((ffUpload stopPart.1).2 : Int),
          FFCmd.queryCaps :: stopPart.2 ++
            [FFCmd.upload (ffUpload stopPart.1).2,
             FFCmd.writePlay (ffUpload stopPart.1).2])

/-- `XboxController::stopVibration` (controller_base.cpp 132–143): no-op
unless an effect is current; the stop write's result is ignored and
`current_effect_id_` is reset to −1. -/
def xcStopVibration (fdOk stopWriteOk : Bool) (dev : FFDev) (cur : Int) :
    FFDev × Int :=
  if fdOk = false ∨ cur < 0 then (dev, cur)
  else ((if stopWriteOk = true then ffStop dev cur.toNat else dev), -1)

/-- The joystick manager's dispatch of a valid vibration datagram for an
active device (joystick.cpp 176–191): both motors zero stops, anything else
starts. -/
def xcDispatchVib (env : VibEnv) (dev : FFDev) (cur : Int)
    (left right : Nat) : FFDev × Int :=
  if left = 0 ∧ right = 0 then xcStopVibration env.fdOk env.stopWriteOk dev cur
  else
    ((xcSendVibration env dev cur).2.1, (xcSendVibration env dev cur).2.2.1)

/-- The standalone publisher's `send_vibration` (xbox_udp_publisher.cpp
208–249): no effect id is tracked and no prior effect is stopped — a fresh
effect is uploaded and played on every call. -/
def pubSendVibration (env : VibEnv) (dev : FFDev) : Bool × FFDev :=
  if env.fdOk = false then (false, dev)
  else if env.gbitOk = false then (false, dev)
  else if env.rumbleBit = false then (false, dev)
  else if env.uploadOk = false then (false, dev)
  else
    if env.playWriteOk = false then (false, (ffUpload dev).1)
    else (true, ffPlay (ffUpload dev).1 (ffUpload dev).2)

/-- The standalone publisher's `stop_vibration` (xbox_udp_publisher.cpp
251–270): uploads a fresh zero-magnitude effect and writes a stop event for
that fresh id only; previously uploaded (and playing) effects are
untouched. -/
def pubStopVibration (env : VibEnv) (dev : FFDev) : FFDev :=
  if env.fdOk = false then dev
  else if env.uploadOk = false then dev
  else
    if env.stopWriteOk = true then ffStop (ffUpload dev).1 (ffUpload dev).2
    else (ffUpload dev).1

/-- Handle invariant tying `current_effect_id_` to the kernel state: the
current id is below the next fresh id, uploaded ids are unique and below
the next fresh id, and only the current effect can be playing. -/
def FFInv (dev : FFDev) (cur : Int) : Prop :=
  cur < (dev.nextId : Int) ∧
    (∀ e ∈ dev.effects, e.1 < dev.nextId) ∧
    (dev.effects.map Prod.fst).Nodup ∧
    (∀ e ∈ dev.effects, e.2 = true → (e.1 : Int) = cur)

theorem ffStop_nextId (dev : FFDev) (k : Nat) : (ffStop dev k).nextId = dev.nextId := rfl

theorem map_fst_ffStop (dev : FFDev) (k : Nat) :
    (ffStop dev k).effects.map Prod.fst = dev.effects.map Prod.fst := by
  unfold ffStop
  rw [List.map_map]
  apply List.map_congr_left
  intro e _
  by_cases h : e.1 = k <;> simp [Function.comp, h]

theorem ffPlaying_ffStop_self (dev : FFDev) (k : Nat) :
    ffPlaying (ffStop dev k) k = false := by
  unfold ffPlaying ffStop
  simp only [List.any_map, List.any_eq_false]
  intro e _
  by_cases h : e.1 = k <;> simp [Function.comp, h]

end XboxControl

namespace XboxControl

theorem xcSend_allOk (dev : FFDev) (cur : Int) :
    xcSendVibration allOk dev cur =
      (true,
       ffPlay (ffUpload (if 0 ≤ cur then ffStop dev cur.toNat else dev)).1 dev.nextId,
       (dev.nextId : Int),
       FFCmd.queryCaps ::
         ((if 0 ≤ cur then [FFCmd.writeStop cur.toNat] else []) ++
           [FFCmd.upload dev.nextId, FFCmd.writePlay dev.nextId])) := by
  unfold xcSendVibration allOk
  by_cases h : 0 ≤ cur <;> simp [h, ffUpload, ffStop_nextId]

/-- After the prior-effect stop (or with no prior effect), no effect is
playing, given the invariant. -/
theorem no_playing_after_stop (dev : FFDev) (cur : Int)
    (hplay : ∀ e ∈ dev.effects, e.2 = true → (e.1 : Int) = cur) :
    ∀ e ∈ (if 0 ≤ cur then ffStop dev cur.toNat else dev).effects, e.2 = false := by
  by_cases h : 0 ≤ cur
  · rw [if_pos h]
    unfold ffStop
    intro e he
    rw [List.mem_map] at he
    obtain ⟨e0, he0, rfl⟩ := he
    by_cases hk : e0.1 = cur.toNat
    · simp [hk]
    · simp only [if_neg hk]
      cases hq : e0.2
      · rfl
      · exfalso
        have hc := hplay e0 he0 hq
        omega
  · rw [if_neg h]
    intro e he
    cases hq : e.2
    · rfl
    · have hc := hplay e he hq
      omega

end XboxControl

namespace XboxControl

theorem play_upload_effects (dev1 : FFDev) (n : Nat) (hn : dev1.nextId = n)
    (hids : ∀ e ∈ dev1.effects, e.1 < n) :
    (ffPlay (ffUpload dev1).1 n).effects = dev1.effects ++ [(n, true)] ∧
      (ffPlay (ffUpload dev1).1 n).nextId = n + 1 := by
  constructor
  · unfold ffPlay ffUpload
    simp only [hn]
    rw [List.map_append]
    congr 1
    · have hcong : ∀ e ∈ dev1.effects, (if e.1 = n then (e.1, true) else e) = id e := by
        intro e he
        have := hids e he
        rw [if_neg (by omega)]
        rfl
      rw [List.map_congr_left hcong, List.map_id]
    · simp
  · simp [ffPlay, ffUpload, hn]

theorem xcSend_allOk_state (dev : FFDev) (cur : Int) (hinv : FFInv dev cur) :
    FFInv (xcSendVibration allOk dev cur).2.1
        (xcSendVibration allOk dev cur).2.2.1 ∧
      playingCount (xcSendVibration allOk dev cur).2.1 ≤ 1 ∧
      (0 ≤ cur →
        ffPlaying (xcSendVibration allOk dev cur).2.1 cur.toNat = false) := by
  obtain ⟨hcur, hlt, hnodup, hplay⟩ := hinv
  have hnp0 := no_playing_after_stop dev cur hplay
  rw [xcSend_allOk]
  set dev1 := if 0 ≤ cur then ffStop dev cur.toNat else dev with hdev1
  have hn1 : dev1.nextId = dev.nextId := by
    rw [hdev1]
    by_cases h : 0 ≤ cur <;> simp [h, ffStop_nextId]
  have hfst : dev1.effects.map Prod.fst = dev.effects.map Prod.fst := by
    rw [hdev1]
    by_cases h : 0 ≤ cur <;> simp [h, map_fst_ffStop]
  have hids : ∀ e ∈ dev1.effects, e.1 < dev.nextId := by
    intro e he
    have hm : e.1 ∈ dev1.effects.map Prod.fst := List.mem_map_of_mem _ he
    rw [hfst, List.mem_map] at hm
    obtain ⟨e0, he0, hfe⟩ := hm
    rw [← hfe]
    exact hlt e0 he0
  have hnp : ∀ e ∈ dev1.effects, e.2 = false := hnp0
  have heq := play_upload_effects dev1 dev.nextId hn1 hids
  have hnot : dev.nextId ∉ dev.effects.map Prod.fst := by
    intro hmem
    rw [List.mem_map] at hmem
    obtain ⟨e0, he0, hfe⟩ := hmem
    have := hlt e0 he0
    omega
  refine ⟨⟨?_, ?_, ?_, ?_⟩, ?_, ?_⟩
  · rw [heq.2]
    push_cast
    omega
  · intro e he
    rw [heq.1, List.mem_append] at he
    rw [heq.2]
    rcases he with he | he
    · have := hids e he
      omega
    · simp at he
      subst he
      omega
  · rw [heq.1, List.map_append, hfst]
    refine List.Nodup.append hnodup (List.nodup_singleton _) ?_
    intro x hx hx2
    simp at hx2
    subst hx2
    exact hnot hx
  · intro e he hq
    rw [heq.1, List.mem_append] at he
    rcases he with he | he
    · have := hnp e he
      rw [this] at hq
      cases hq
    · simp at he
      subst he
      rfl
  · unfold playingCount
    rw [heq.1, List.filter_append]
    have h1 : dev1.effects.filter (fun e => e.2) = [] := by
      rw [List.filter_eq_nil_iff]
      intro e he
      simp [hnp e he]
    rw [h1]
    simp
  · intro h0
    unfold ffPlaying
    rw [heq.1]
    rw [List.any_eq_false]
    intro e he
    rw [List.mem_append] at he
    rcases he with he | he
    · simp [hnp e he]
    · simp at he
      subst he
      have : cur.toNat < dev.nextId := by omega
      simp
      omega

end XboxControl

namespace XboxControl

theorem ffStop_ids (dev : FFDev) (k : Nat)
    (hlt : ∀ e ∈ dev.effects, e.1 < dev.nextId) :
    ∀ e ∈ (ffStop dev k).effects, e.1 < dev.nextId := by
  intro e he
  have hm : e.1 ∈ (ffStop dev k).effects.map Prod.fst := List.mem_map_of_mem _ he
  rw [map_fst_ffStop, List.mem_map] at hm
  obtain ⟨e0, he0, hfe⟩ := hm
  rw [← hfe]
  exact hlt e0 he0

theorem pubSend_allOk (dev : FFDev) :
    pubSendVibration allOk dev = (true, ffPlay (ffUpload dev).1 dev.nextId) := by
  unfold pubSendVibration allOk ffUpload
  simp

theorem pubSend_playing (dev : FFDev)
    (hlt : ∀ e ∈ dev.effects, e.1 < dev.nextId) :
    playingCount (pubSendVibration allOk dev).2 = playingCount dev + 1 ∧
      (∀ k, ffPlaying dev k = true →
        ffPlaying (pubSendVibration allOk dev).2 k = true) := by
  have heq := play_upload_effects dev dev.nextId rfl hlt
  rw [pubSend_allOk]
  constructor
  · unfold playingCount
    rw [heq.1, List.filter_append]
    simp
  · intro k hk
    unfold ffPlaying at hk ⊢
    rw [heq.1, List.any_append, hk]
    rfl

theorem pubStop_playing (dev : FFDev)
    (hlt : ∀ e ∈ dev.effects, e.1 < dev.nextId) :
    ∀ k, ffPlaying (pubStopVibration allOk dev) k = ffPlaying dev k := by
  intro k
  have hold : dev.effects.map
      (fun e => if e.1 = dev.nextId then (e.1, false) else e) = dev.effects := by
    have hcong : ∀ e ∈ dev.effects,
        (if e.1 = dev.nextId then (e.1, false) else e) = id e := by
      intro e he
      have := hlt e he
      rw [if_neg (by omega)]
      rfl
    rw [List.map_congr_left hcong, List.map_id]
  unfold pubStopVibration allOk ffStop ffUpload ffPlaying
  simp [hold, List.any_append]

theorem xcStop_state (dev : FFDev) (cur : Int) (h : 0 ≤ cur) :
    xcStopVibration true true dev cur = (ffStop dev cur.toNat, -1) := by
  unfold xcStopVibration
  rw [if_neg (by simp; omega)]
  simp

theorem xcStop_twice (dev : FFDev) (cur : Int) (h : -1 ≤ cur) :
    (xcStopVibration true true
        ((xcStopVibration true true dev cur).1)
        ((xcStopVibration true true dev cur).2)).2 = -1 := by
  by_cases hc : cur < 0
  · have hcur : cur = -1 := by omega
    subst hcur
    simp [xcStopVibration]
  · simp [xcStopVibration, hc]

end XboxControl

namespace XboxControl

/-- Claim C5 (counterexample): on the standalone publisher's path, two
consecutive start commands leave *two* effects playing (each upload gets a
fresh kernel id and the prior effect is never stopped), and a `(0,0)` stop
datagram leaves the previously playing effect still playing (it uploads a
fresh empty effect and stops only that fresh id). -/
theorem C5_counterexample :
    playingCount (pubSendVibration allOk
        (pubSendVibration allOk ⟨[], 0⟩).2).2 = 2 ∧
      ¬ playingCount (pubSendVibration allOk
        (pubSendVibration allOk ⟨[], 0⟩).2).2 ≤ 1 ∧
      ffPlaying (pubStopVibration allOk ⟨[(0, true)], 1⟩) 0 = true := by
  refine ⟨?_, ?_, ?_⟩ <;> decide

/-- Claim C5 (amended): on the joystick-manager path (`XboxController`) all
the claimed properties hold: with an effect active the prior effect's stop
write is issued before the new upload; a `(0,0)` datagram stops the active
effect and resets `current_effect_id` to −1; stop twice leaves Idle; start
twice (from any state satisfying the handle invariant) leaves at most one
effect playing, with the old effect id no longer playing.  On the
standalone publisher's path, however, each start uploads and plays a fresh
effect without stopping the prior one (the playing count grows by one per
start), and its stop touches only a freshly uploaded empty effect, leaving
previously playing effects playing. -/
theorem C5_effect_lifecycle_amended :
    (∀ (dev : FFDev) (cur : Int), 0 ≤ cur →
        (xcSendVibration allOk dev cur).2.2.2 =
          [FFCmd.queryCaps, FFCmd.writeStop cur.toNat,
           FFCmd.upload dev.nextId, FFCmd.writePlay dev.nextId]) ∧
      (∀ (dev : FFDev) (cur : Int), 0 ≤ cur →
        xcDispatchVib allOk dev cur 0 0 = (ffStop dev cur.toNat, -1) ∧
          ffPlaying (xcDispatchVib allOk dev cur 0 0).1 cur.toNat = false) ∧
      (∀ (dev : FFDev) (cur : Int), -1 ≤ cur →
        (xcStopVibration true true
            ((xcStopVibration true true dev cur).1)
            ((xcStopVibration true true dev cur).2)).2 = -1) ∧
      (∀ (dev : FFDev) (cur : Int), FFInv dev cur →
        FFInv (xcSendVibration allOk dev cur).2.1
            (xcSendVibration allOk dev cur).2.2.1 ∧
          playingCount (xcSendVibration allOk dev cur).2.1 ≤ 1 ∧
          (0 ≤ cur →
            ffPlaying (xcSendVibration allOk dev cur).2.1 cur.toNat = false)) ∧
      (∀ (dev : FFDev) (cur : Int), FFInv dev cur →
        playingCount (xcSendVibration allOk
            (xcSendVibration allOk dev cur).2.1
            (xcSendVibration allOk dev cur).2.2.1).2.1 ≤ 1 ∧
          ffPlaying (xcSendVibration allOk
            (xcSendVibration allOk dev cur).2.1
            (xcSendVibration allOk dev cur).2.2.1).2.1
            ((xcSendVibration allOk dev cur).2.2.1).toNat = false) ∧
      (∀ dev : FFDev, (∀ e ∈ dev.effects, e.1 < dev.nextId) →
        playingCount (pubSendVibration allOk dev).2 = playingCount dev + 1 ∧
          (∀ k, ffPlaying dev k = true →
            ffPlaying (pubSendVibration allOk dev).2 k = true) ∧
          (∀ k, ffPlaying (pubStopVibration allOk dev) k = ffPlaying dev k)) := by
  refine ⟨?_, ?_, ?_, xcSend_allOk_state, ?_, ?_⟩
  · intro dev cur h
    rw [xcSend_allOk]
    simp [h]
  · intro dev cur h
    have hd : xcDispatchVib allOk dev cur 0 0 = xcStopVibration true true dev cur := by
      simp [xcDispatchVib, allOk]
    rw [hd, xcStop_state dev cur h]
    exact ⟨rfl, ffPlaying_ffStop_self dev cur.toNat⟩
  · intro dev cur h
    exact xcStop_twice dev cur h
  · intro dev cur hinv
    have h1 := xcSend_allOk_state dev cur hinv
    have h2 := xcSend_allOk_state _ _ h1.1
    refine ⟨h2.2.1, h2.2.2 ?_⟩
    rw [xcSend_allOk]
    exact Int.ofNat_nonneg _
  · intro dev hlt
    exact ⟨(pubSend_playing dev hlt).1, (pubSend_playing dev hlt).2,
      pubStop_playing dev hlt⟩

/-- Witness for `C5_effect_lifecycle_amended`: concrete instantiations of
the trace, stop-idempotence and invariant conjuncts. -/
theorem C5_witness :
    (0 : Int) ≤ 2 ∧
      (xcSendVibration allOk ⟨[(2, true)], 3⟩ 2).2.2.2 =
        [FFCmd.queryCaps, FFCmd.writeStop 2, FFCmd.upload 3, FFCmd.writePlay 3] ∧
      (-1 : Int) ≤ -1 ∧
      (xcStopVibration true true
          ((xcStopVibration true true ⟨[], 0⟩ (-1)).1)
          ((xcStopVibration true true ⟨[], 0⟩ (-1)).2)).2 = -1 ∧
      FFInv ⟨[], 0⟩ (-1) ∧
      playingCount (xcSendVibration allOk ⟨[], 0⟩ (-1)).2.1 ≤ 1 := by
  have h2 : (0 : Int) ≤ 2 := by decide
  have hm1 : (-1 : Int) ≤ -1 := by decide
  have hinv : FFInv (⟨[], 0⟩ : FFDev) (-1) := by
    refine ⟨by decide, by simp, by simp, by simp⟩
  exact ⟨h2, C5_effect_lifecycle_amended.1 ⟨[(2, true)], 3⟩ 2 h2, hm1,
    C5_effect_lifecycle_amended.2.2.1 ⟨[], 0⟩ (-1) hm1, hinv,
    (C5_effect_lifecycle_amended.2.2.2.1 ⟨[], 0⟩ (-1) hinv).2.1⟩

/-- Claim C6 (counterexample): when the play write fails after a successful
upload, `sendVibration` returns failure but `current_effect_id_` has
already been set to the freshly assigned effect id — from Idle (−1) the
handle ends up `current_effect_id = 0`, i.e. Playing, although the call
failed and the effect was never played. -/
theorem C6_counterexample :
    (xcSendVibration ⟨true, true, true, true, true, false⟩ ⟨[], 0⟩ (-1)).1 = false ∧
      (xcSendVibration ⟨true, true, true, true, true, false⟩ ⟨[], 0⟩ (-1)).2.2.1 = 0 ∧
      ¬ ((0 : Int) = -1) := by
  refine ⟨?_, ?_, ?_⟩ <;> decide

/-- Claim C6 (amended): failures of the capability ioctl, the missing
`FF_RUMBLE` bit, or the upload ioctl indeed leave `current_effect_id` (and
hence the Playing/Idle state) unchanged; but when the play write fails
after a successful upload, `current_effect_id` has already been updated to
the fresh effect id, so the handle transitions to Playing while the
uploaded effect is not playing — a partial effect is considered active. -/
theorem C6_failure_semantics_amended :
    (∀ (env : VibEnv) (dev : FFDev) (cur : Int),
        env.fdOk = false ∨ env.gbitOk = false ∨ env.rumbleBit = false →
        (xcSendVibration env dev cur).1 = false ∧
          (xcSendVibration env dev cur).2.1 = dev ∧
          (xcSendVibration env dev cur).2.2.1 = cur) ∧
      (∀ (env : VibEnv) (dev : FFDev) (cur : Int),
        env.fdOk = true → env.gbitOk = true → env.rumbleBit = true →
        env.uploadOk = false →
        (xcSendVibration env dev cur).1 = false ∧
          (xcSendVibration env dev cur).2.2.1 = cur) ∧
      (∀ (env : VibEnv) (dev : FFDev) (cur : Int),
        (∀ e ∈ dev.effects, e.1 < dev.nextId) →
        env.fdOk = true → env.gbitOk = true → env.rumbleBit = true →
        env.uploadOk = true → env.playWriteOk = false →
        (xcSendVibration env dev cur).1 = false ∧
          (xcSendVibration env dev cur).2.2.1 = (dev.nextId : Int) ∧
          ffPlaying (xcSendVibration env dev cur).2.1 dev.nextId = false ∧
          (dev.nextId, false) ∈ ((xcSendVibration env dev cur).2.1).effects) := by
  refine ⟨?_, ?_, ?_⟩
  · intro env dev cur h
    unfold xcSendVibration
    cases hfd : env.fdOk <;> cases hgb : env.gbitOk <;> cases hrb : env.rumbleBit <;>
      simp_all
  · intro env dev cur h1 h2 h3 h4
    unfold xcSendVibration
    simp [h1, h2, h3, h4]
  · intro env dev cur hlt h1 h2 h3 h4 h5
    have hids2 : ∀ e ∈ (if 0 ≤ cur then
        (if env.stopWriteOk = true then ffStop dev cur.toNat else dev)
        else dev).effects, e.1 < dev.nextId := by
      by_cases hc : 0 ≤ cur
      · by_cases hsw : env.stopWriteOk = true
        · simpa [hc, hsw] using ffStop_ids dev cur.toNat hlt
        · simpa [hc, hsw] using hlt
      · simpa [hc] using hlt
    have hn : (if 0 ≤ cur then
        (if env.stopWriteOk = true then ffStop dev cur.toNat else dev)
        else dev).nextId = dev.nextId := by
      by_cases hc : 0 ≤ cur
      · by_cases hsw : env.stopWriteOk = true <;> simp [hc, hsw, ffStop_nextId]
      · simp [hc]
    have hxc : xcSendVibration env dev cur =
        (false,
         (ffUpload (if 0 ≤ cur then
            (if env.stopWriteOk = true then ffStop dev cur.toNat else dev)
            else dev)).1,
         ((ffUpload (if 0 ≤ cur then
            (if env.stopWriteOk = true then ffStop dev cur.toNat else dev)
            else dev)).2 : Int),
         FFCmd.queryCaps ::
           (if 0 ≤ cur then [FFCmd.writeStop cur.toNat] else []) ++
             [FFCmd.upload (ffUpload (if 0 ≤ cur then
               (if env.stopWriteOk = true then ffStop dev cur.toNat else dev)
               else dev)).2]) := by
      unfold xcSendVibration
      by_cases hc : 0 ≤ cur <;> simp [h1, h2, h3, h4, h5, hc]
    rw [hxc]
    refine ⟨rfl, ?_, ?_, ?_⟩
    · show ((ffUpload _).2 : Int) = (dev.nextId : Int)
      rw [show ∀ d : FFDev, (ffUpload d).2 = d.nextId from fun _ => rfl, hn]
    · unfold ffPlaying ffUpload
      simp only [List.any_append, List.any_eq_false, Bool.or_eq_false_iff]
      constructor
      · intro e he
        have := hids2 e he
        simp only [Bool.and_eq_true, decide_eq_true_eq, not_and]
        intro hfe
        omega
      · intro e he
        simp only [List.mem_singleton] at he
        subst he
        simp
    · show (dev.nextId, false) ∈ (ffUpload _).1.effects
      unfold ffUpload
      simp [hn]
  
end XboxControl

namespace XboxControl

/-- Witness for `C6_failure_semantics_amended`: a failed capability ioctl
and a failed upload leave `current_effect_id` at 5; a failed play write
moves it from −1 to the fresh id 1 with the uploaded effect not playing. -/
theorem C6_witness :
    (xcSendVibration ⟨false, true, true, true, true, true⟩ ⟨[], 0⟩ 5).2.2.1 = 5 ∧
      (xcSendVibration ⟨true, true, true, true, false, true⟩ ⟨[], 0⟩ 5).2.2.1 = 5 ∧
      (xcSendVibration ⟨true, true, true, true, true, false⟩
          ⟨[(0, true)], 1⟩ (-1)).2.2.1 = 1 ∧
      ffPlaying (xcSendVibration ⟨true, true, true, true, true, false⟩
          ⟨[(0, true)], 1⟩ (-1)).2.1 1 = false := by
  have h1 := C6_failure_semantics_amended.1
    ⟨false, true, true, true, true, true⟩ ⟨[], 0⟩ 5 (Or.inl rfl)
  have h2 := C6_failure_semantics_amended.2.1
    ⟨true, true, true, true, false, true⟩ ⟨[], 0⟩ 5 rfl rfl rfl rfl
  have h3 := C6_failure_semantics_amended.2.2
    ⟨true, true, true, true, true, false⟩ ⟨[(0, true)], 1⟩ (-1)
    (by simp) rfl rfl rfl rfl rfl
  exact ⟨h1.2.2, h2.2, h3.2.1, h3.2.2.1⟩

end XboxControl
